import Mathlib

/-
Verification of the interactive design-canvas subsystem of the
auto-tshirt-designer repository.  Each definition is a shallow embedding of
the corresponding TypeScript function; file and line references point into
the repository sources.
-/

namespace TShirt

/-! ## Transform model (DraggableDesign.tsx, handleMouseMove lines 93-127) -/

/-- A width/height pair in CSS pixels, as rational numbers. -/
structure Size where
  width : ℚ
  height : ℚ
deriving DecidableEq

/-- A point in CSS pixels. -/
structure Pos where
  x : ℚ
  y : ℚ
deriving DecidableEq

/-- Embedding of the drag-move clamping of DraggableDesign.tsx lines
106-118: the design, whose center is at the candidate position `newPos`,
is constrained to `[scaledWidth/2, containerWidth - scaledWidth/2]`
(and analogously in y) via `max minX (min maxX newX)`. -/
def clampPosition (container designSize : Size) (scale : ℚ) (newPos : Pos) : Pos :=
  let scaledWidth := designSize.width * scale
  let scaledHeight := designSize.height * scale
  let minX := scaledWidth / 2
  let maxX := container.width - scaledWidth / 2
  let minY := scaledHeight / 2
  let maxY := container.height - scaledHeight / 2
  { x := max minX (min maxX newPos.x)
    y := max minY (min maxY newPos.y) }

/-- The scaled bounding box of a design centred at `p` lies fully inside
the container: left/top edges at least 0 and right/bottom edges at most
the container dimensions. -/
def boxInBounds (container designSize : Size) (scale : ℚ) (p : Pos) : Prop :=
  0 ≤ p.x - designSize.width * scale / 2 ∧
  p.x + designSize.width * scale / 2 ≤ container.width ∧
  0 ≤ p.y - designSize.height * scale / 2 ∧
  p.y + designSize.height * scale / 2 ≤ container.height

instance (container designSize : Size) (scale : ℚ) (p : Pos) :
    Decidable (boxInBounds container designSize scale p) := by
  unfold boxInBounds; infer_instance

/-! ## Pixel sampler (DraggableDesign.tsx, handleImageColorPick lines
136-170 and handleImageMouseMove lines 172-201) -/

/-- Embedding of the native-pixel index computation of
DraggableDesign.tsx lines 155-158: `scaleX = naturalWidth / rect.width`
and `actualX = Math.floor(x * scaleX)`.  There is no clamping step in the
source. -/
def sampleIndex (naturalDim : ℕ) (displayedDim coord : ℚ) : ℤ :=
  Int.floor (coord * ((naturalDim : ℚ) / displayedDim))

/-- A native-pixel index is within the image bounds `[0, dim-1]`. -/
def indexInBounds (naturalDim : ℕ) (i : ℤ) : Prop :=
  0 ≤ i ∧ i ≤ (naturalDim : ℤ) - 1

instance (naturalDim : ℕ) (i : ℤ) : Decidable (indexInBounds naturalDim i) := by
  unfold indexInBounds; infer_instance

/-! ## Prompt formatting (api.ts lines 202-209 and 507-524) -/

/-- Template strings from api.ts lines 202-206.  The source's first
template field (an empty string) is called `head` here because its
original name is not a legal Lean identifier in this development. -/
def PROMPT_TEMPLATES_head : String := ""

/-- Template field `suffix` from api.ts line 204. -/
def PROMPT_TEMPLATES_suffix : String :=
  ", professional product photography, centered composition, high quality"

/-- Embedding of `getColorName` (api.ts lines 512-524): an eight-entry
lookup with default value "white". -/
def getColorName (hex : String) : String :=
  if hex = "#ffffff" then "white"
  else if hex = "#000000" then "black"
  else if hex = "#0f172a" then "navy"
  else if hex = "#6b7280" then "gray"
  else if hex = "#ef4444" then "red"
  else if hex = "#22c55e" then "green"
  else if hex = "#3b82f6" then "blue"
  else if hex = "#a855f7" then "purple"
  else "white"

/-- Embedding of `formatPrompt` (api.ts lines 507-510). -/
def formatPrompt (basePrompt color : String) : String :=
  PROMPT_TEMPLATES_head ++ " " ++ basePrompt ++ " on a " ++ getColorName color
    ++ " background, " ++ PROMPT_TEMPLATES_suffix

/-! ## Controller state (CustomDesign.tsx lines 758-788 and api.ts) -/

/-- Embedding of the `DesignTransform` interface (CustomDesign.tsx lines
750-756).  The fields `width`, `height`, `originalWidth`,
`originalHeight` are not declared on the interface but are written
dynamically by `pollDesignStatus` (api.ts lines 380-389), so they appear
here as optional fields that start out absent. -/
structure DesignTransform where
  hasBackground : Bool
  texture : Option String
  rotation : ℚ
  scale : ℚ
  position : Pos
  width : Option ℚ
  height : Option ℚ
  originalWidth : Option ℚ
  originalHeight : Option ℚ
deriving DecidableEq

/-- The slice of the CustomDesign component state (CustomDesign.tsx lines
758-788) that the api.ts handlers read and write.  React state setters
are modelled as immediate field updates; functional updates
`set(prev => ...)` read the field of the state being threaded. -/
structure CState where
  designTexture : Option String
  designTransform : DesignTransform
  designHistory : List String
  error : Option String
  isLoading : Bool
  isGenerating : Bool
  isCropping : Bool
  retryCount : ℕ
  taskId : Option String
deriving DecidableEq

/-- The initial transform (CustomDesign.tsx lines 769-775). -/
def initialTransform : DesignTransform :=
  { hasBackground := true, texture := none, rotation := 0, scale := 1
    position := ⟨0, 0⟩, width := none, height := none
    originalWidth := none, originalHeight := none }

/-- The initial component state (CustomDesign.tsx lines 758-788). -/
def initialState : CState :=
  { designTexture := none, designTransform := initialTransform
    designHistory := [], error := none, isLoading := false
    isGenerating := false, isCropping := false, retryCount := 0
    taskId := none }

/-- Embedding of `updateDesignWithHistory` (api.ts lines 526-531): the
caller passes the design texture it captured (`designTexture` parameter
in the source); if that captured texture is present it is pushed onto the
history, then the current texture is replaced by `newDesign`. -/
def updateDesignWithHistory (st : CState) (captured newDesign : Option String) :
    CState :=
  let st1 := match captured with
    | some t => { st with designHistory := st.designHistory ++ [t] }
    | none => st
  { st1 with designTexture := newDesign }

/-- Outcome of a one-shot remote call, from the caller's point of view:
a fetch-level failure carrying the thrown message, a non-2xx response
carrying its status text, or a successful response already converted to
the blob URL the handler will install. -/
inductive RemoteOutcome where
  | networkError (msg : String)
  | httpError (statusText : String)
  | success (url : String)
deriving DecidableEq

/-- Embedding of `handleBackgroundToggle` (api.ts lines 418-460).  The
returned Bool records whether the handler proceeded past its guard and
issued the remote request sequence.  Guard (line 419): return if there is
no design texture or a request is already in flight.  On success (lines
447-453) the blob URL is installed via `updateDesignWithHistory` and
`hasBackground` is set to false; any failure is caught (lines 454-456)
and only sets the error message; `finally` clears `isLoading`. -/
def handleBackgroundToggle (st : CState) (o : RemoteOutcome) : CState × Bool :=
  if st.designTexture = none ∨ st.isLoading = true then (st, false)
  else
    let st1 := { st with isLoading := true }
    match o with
    | RemoteOutcome.networkError msg =>
        ({ st1 with error := some msg, isLoading := false }, true)
    | RemoteOutcome.httpError _ =>
        ({ st1 with error := some ("Failed to remove background"),
                    isLoading := false }, true)
    | RemoteOutcome.success url =>
        let st2 := updateDesignWithHistory st1 st1.designTexture (some url)
        let st3 := { st2 with
          designTransform := { st2.designTransform with hasBackground := false },
          isLoading := false }
        (st3, true)

/-- Embedding of `handleTransparencyChange` (api.ts lines 462-505).
Guard (line 463): return if there is no design texture or the selected
color is falsy (empty string); note the guard does not consult
`isLoading`.  On success (lines 496-498) only the texture is replaced;
failures set the error message (lines 499-501); `finally` clears
`isLoading`. -/
def handleTransparencyChange (st : CState) (selectedColor : String)
    (o : RemoteOutcome) : CState × Bool :=
  if st.designTexture = none ∨ selectedColor = "" then (st, false)
  else
    let st1 := { st with isLoading := true, error := none }
    match o with
    | RemoteOutcome.networkError msg =>
        ({ st1 with error := some msg, isLoading := false }, true)
    | RemoteOutcome.httpError statusText =>
        ({ st1 with error := some ("Failed to apply transparency: " ++ statusText),
                    isLoading := false }, true)
    | RemoteOutcome.success url =>
        ({ st1 with designTexture := some url, isLoading := false }, true)

/-- Outcome of the generation submit request (api.ts lines 282-300):
fetch-level failure, non-2xx response, or acceptance with a task id. -/
inductive SubmitOutcome where
  | networkError (msg : String)
  | httpError (statusText : String)
  | accepted (taskId : String)
deriving DecidableEq

/-- Embedding of the submit phase of `handleGenerateDesign` (api.ts lines
263-317): sets `isGenerating` and clears the error, then either records
the accepted task id (line 300; the poll loop it then starts is modelled
separately by `pollDesignStatus`) or, on failure, sets the error message
and clears `isGenerating` (lines 312-316). -/
def handleGenerateDesign (st : CState) (o : SubmitOutcome) : CState :=
  let st1 := { st with isGenerating := true, error := none }
  match o with
  | SubmitOutcome.networkError msg =>
      { st1 with error := some msg, isGenerating := false }
  | SubmitOutcome.httpError statusText =>
      { st1 with error := some ("Failed to generate design: " ++ statusText),
                 isGenerating := false }
  | SubmitOutcome.accepted tid => { st1 with taskId := some tid }

/-! ## Crop engine (CustomDesign.tsx, handleCropComplete lines 183-224,
identical structure at lines 844-877) -/

/-- A crop region as delivered by react-image-crop: width or height may
be undefined. -/
structure CropRegion where
  x : ℚ
  y : ℚ
  width : Option ℚ
  height : Option ℚ
deriving DecidableEq

/-- An image element: native pixel dimensions and displayed (CSS)
dimensions. -/
structure ImageElem where
  naturalWidth : ℚ
  naturalHeight : ℚ
  width : ℚ
  height : ℚ
deriving DecidableEq

/-- JavaScript truthiness of `crop.width` / `crop.height`: undefined and
0 are falsy. -/
def jsTruthyQ : Option ℚ → Bool
  | none => false
  | some q => decide (q ≠ 0)

/-- Output canvas width of the crop (CustomDesign.tsx line 190):
`crop.width * (naturalWidth / image.width)`. -/
def cropCanvasWidth (image : ImageElem) (cropWidth : ℚ) : ℚ :=
  cropWidth * (image.naturalWidth / image.width)

/-- Output canvas height of the crop (CustomDesign.tsx line 191). -/
def cropCanvasHeight (image : ImageElem) (cropHeight : ℚ) : ℚ :=
  cropHeight * (image.naturalHeight / image.height)

/-- Embedding of `handleCropComplete` (CustomDesign.tsx lines 183-224).
The body runs only when the image ref is set and `crop.width` and
`crop.height` are both truthy (line 184); otherwise the function returns
without touching any state — including `isCropping`.  `blob` is the
result of `canvas.toBlob`, already wrapped as an object URL when
non-null; only a non-null blob commits the new texture, pushes the old
one to history and exits crop mode (lines 207-221). -/
def handleCropComplete (st : CState) (image : Option ImageElem)
    (crop : CropRegion) (blob : Option String) : CState :=
  match image with
  | none => st
  | some _ =>
    if jsTruthyQ crop.width = true ∧ jsTruthyQ crop.height = true then
      match blob with
      | some url =>
          let st1 := updateDesignWithHistory st st.designTexture (some url)
          { st1 with isCropping := false }
      | none => st
    else st

/-! ## Generation poll loop (api.ts, pollDesignStatus lines 319-416) -/

/-- `apiBaseUrl` (api.ts lines 208-209), development branch. -/
def apiBaseUrl : String := "http://localhost:8000"

/-- `maxRetries` (api.ts line 328). -/
def maxRetries : ℕ := 30

/-- The fixed poll interval in milliseconds (api.ts line 403,
`setTimeout(resolve, 1000)`). -/
def pollIntervalMs : ℕ := 1000

/-- JavaScript truthiness for an optional string: undefined and the
empty string are falsy. -/
def jsTruthyS : Option String → Bool
  | none => false
  | some s => decide (s ≠ "")

/-- Embedding of the image-source resolution on a completed status
(api.ts lines 351-361): take `result.image_url`, fix up a leading slash
by joining with the api base, and fall back to `result.image_data`
(wrapped as a data URI when needed) when the url is falsy. -/
def resolveImageSource (image_url image_data : Option String) : Option String :=
  let s1 : Option String :=
    match image_url with
    | some u =>
        if u ≠ "" ∧ u.startsWith ("/") = true then some (apiBaseUrl ++ u)
        else some u
    | none => none
  if jsTruthyS s1 = true then s1
  else
    match image_data with
    | some d =>
        if d ≠ "" then
          if d.startsWith ("data:") = true then some d
          else some ("data:image/png;base64," ++ d)
        else s1
    | none => s1

/-- The error message thrown on a failed status (api.ts line 400):
`data.error || 'Design generation failed'`. -/
def failedMsg : Option String → String
  | none => "Design generation failed"
  | some e => if e = "" then "Design generation failed" else e

/-- One status-endpoint response as observed by the poll loop (api.ts
lines 342-401): a non-ok fetch, a terminal status, or anything else
(pending/processing).  For a completed status, `load` carries the loaded
image's width and height when the browser image load succeeds, and is
`none` when it fails. -/
inductive StatusResp where
  | httpError
  | processing
  | failed (err : Option String)
  | completed (image_url : Option String) (image_data : Option String)
      (load : Option (ℚ × ℚ))
deriving DecidableEq

/-- The commit performed by the poll loop on a successfully loaded
completed result (api.ts lines 370-389): compute the fitted scale
`min 1 (300 / max w h)`, set the texture, push via
`updateDesignWithHistory` with the texture the caller captured, and
reset the transform; the wrapper installed by CustomDesign.tsx line 995
also clears `isGenerating`.  Nothing in this commit consults or compares
the current task id: it applies unconditionally. -/
def pollCommit (st : CState) (captured : Option String) (imageSource : String)
    (imgW imgH : ℚ) : CState :=
  let scale := min 1 (300 / max imgW imgH)
  let scaledWidth : ℤ := round (imgW * scale)
  let scaledHeight : ℤ := round (imgH * scale)
  let st1 := { st with designTexture := some imageSource }
  let st2 := updateDesignWithHistory st1 captured (some imageSource)
  let st3 := { st2 with designTransform := { st2.designTransform with
      hasBackground := true,
      width := some (scaledWidth : ℚ), height := some (scaledHeight : ℚ),
      originalWidth := some imgW, originalHeight := some imgH,
      scale := scale, position := ⟨0, 0⟩ } }
  { st3 with isGenerating := false }

/-- How one run of the poll loop ended. -/
inductive PollResult where
  | success (img : String)
  | errored (msg : String)
  | timedOut
deriving DecidableEq

/-- Result of running the poll loop: the final controller state, the
number of status fetches performed, the list of waits (in ms) taken
between iterations, and how the loop ended. -/
structure PollOutcome where
  state : CState
  polls : ℕ
  waits : List ℕ
  result : PollResult
deriving DecidableEq

/-- Embedding of the `while (retries < maxRetries)` loop of
`pollDesignStatus` (api.ts lines 340-415), with `fuel = maxRetries -
retries` made explicit.  Each iteration fetches one status; a thrown
error is caught, sets the error message and breaks (lines 406-410); a
completed status with a truthy image source and a successful image load
commits and returns (line 391); otherwise the loop sleeps one interval,
increments `retries`, publishes it via `setRetryCount` and continues;
when the retry budget is exhausted the timeout message is set (lines
413-415). -/
def pollLoop (resp : ℕ → StatusResp) (captured : Option String) :
    ℕ → ℕ → ℕ → List ℕ → CState → PollOutcome
  | 0, _, polls, waits, st =>
      { state := { st with
          error := some ("Design generation timed out. Please try again.") },
        polls := polls, waits := waits, result := PollResult.timedOut }
  | fuel + 1, retries, polls, waits, st =>
      match resp retries with
      | StatusResp.httpError =>
          { state := { st with error := some ("Failed to get status") },
            polls := polls + 1, waits := waits,
            result := PollResult.errored ("Failed to get status") }
      | StatusResp.failed e =>
          { state := { st with error := some (failedMsg e) },
            polls := polls + 1, waits := waits,
            result := PollResult.errored (failedMsg e) }
      | StatusResp.completed iu idat load =>
          match resolveImageSource iu idat with
          | none =>
              { state := { st with error := some ("No image data received") },
                polls := polls + 1, waits := waits,
                result := PollResult.errored ("No image data received") }
          | some src =>
              if src = "" then
                { state := { st with error := some ("No image data received") },
                  polls := polls + 1, waits := waits,
                  result := PollResult.errored ("No image data received") }
              else
                match load with
                | some dims =>
                    { state := pollCommit st captured src dims.1 dims.2,
                      polls := polls + 1, waits := waits,
                      result := PollResult.success src }
                | none =>
                    { state := { st with
                        error := some ("Failed to load the generated image") },
                      polls := polls + 1, waits := waits,
                      result :=
                        PollResult.errored ("Failed to load the generated image") }
      | StatusResp.processing =>
          pollLoop resp captured fuel (retries + 1) (polls + 1)
            (waits ++ [pollIntervalMs]) { st with retryCount := retries + 1 }

/-- Entry point of the poll loop (api.ts lines 328-340): `retries`
starts at 0 with the full `maxRetries` budget. -/
def pollDesignStatus (resp : ℕ → StatusResp) (captured : Option String)
    (st : CState) : PollOutcome :=
  pollLoop resp captured maxRetries 0 0 [] st

/-! ## Interleaving of two generation calls

The browser event loop interleaves the suspension points of concurrent
poll loops over the single shared component state.  A generation call is
a submit (handleGenerateDesign acceptance) followed by, possibly much
later, the commit its poll loop performs when its own status fetch
returns completed.  `pollCommit` — taken verbatim from api.ts lines
370-389 — is applied to whatever the shared state is at resolution time,
with no comparison between the resolving call's task id and the current
one. -/

/-- An event on the shared controller state: a prompt submission
accepted with a task id, or the resolution of that task's poll loop with
its loaded image.  The resolve event carries the task id it belongs to
and the design texture its closure captured at submit time, mirroring
the arguments of the source calls. -/
inductive GenEvent where
  | submit (taskId : String)
  | resolve (taskId : String) (captured : Option String) (img : String)
      (w h : ℚ)

/-- Run a sequence of generation events over the shared state in event
order.  Note that `resolve` applies `pollCommit` unconditionally; the
resolving task's id is not compared with `taskId` in the state, because
the source's poll loop performs no such comparison. -/
def runEvents : List GenEvent → CState → CState
  | [], st => st
  | GenEvent.submit tid :: es, st =>
      runEvents es (handleGenerateDesign st (SubmitOutcome.accepted tid))
  | GenEvent.resolve _ captured img w h :: es, st =>
      runEvents es (pollCommit st captured img w h)

/-! ## Undo (CustomDesign.tsx, handleUndo lines 879-886) -/

/-- Embedding of `handleUndo` (CustomDesign.tsx lines 879-886): when the
history is non-empty, take its last element as the previous state, drop
it from the history (`slice(0, -1)`) and make it the current texture;
otherwise do nothing. -/
def handleUndo (st : CState) : CState :=
  match st.designHistory.getLast? with
  | none => st
  | some previousState =>
      { st with designHistory := st.designHistory.dropLast,
                designTexture := some previousState }

/-- The core visual state — current image, transform and history — of
`b` agrees with that of `a` (the error flag and the busy flags may
differ). -/
def coreUnchanged (a b : CState) : Prop :=
  b.designTexture = a.designTexture ∧
  b.designTransform = a.designTransform ∧
  b.designHistory = a.designHistory

end TShirt

namespace TShirt

/-- Claim C1: for every scale in (0,3], container size, design size and
drag target, the clamped position keeps the scaled bounding box fully
within the container.  This is false: with a 200x200 design at scale 1 in
a 100x100 container the clamp yields a box whose right edge is 200 > 100. -/
theorem clampPosition_escape_at_scale_one :
    (0 : ℚ) < 1 ∧ (1 : ℚ) ≤ 3 ∧
    ¬ boxInBounds ⟨100, 100⟩ ⟨200, 200⟩ 1
        (clampPosition ⟨100, 100⟩ ⟨200, 200⟩ 1 ⟨0, 0⟩) := by
  refine ⟨by norm_num, by norm_num, ?_⟩
  intro h
  have hx := h.2.1
  simp only [clampPosition, boxInBounds] at hx
  norm_num at hx

/-- Claim C1 (amended): whenever the scaled design fits inside the
container (scaled width at most container width, scaled height at most
container height) and the scale is in (0,3], the clamped position keeps
the scaled bounding box fully within the container. -/
theorem clampPosition_in_bounds (container designSize : Size) (scale : ℚ)
    (p : Pos) (hs : 0 < scale) (hs3 : scale ≤ 3)
    (hw : designSize.width * scale ≤ container.width)
    (hh : designSize.height * scale ≤ container.height) :
    boxInBounds container designSize scale
      (clampPosition container designSize scale p) := by
  simp only [clampPosition, boxInBounds]
  have hwx : designSize.width * scale / 2 ≤
      container.width - designSize.width * scale / 2 := by linarith
  have hhy : designSize.height * scale / 2 ≤
      container.height - designSize.height * scale / 2 := by linarith
  refine ⟨?_, ?_, ?_, ?_⟩
  · have := le_max_left (designSize.width * scale / 2)
      (min (container.width - designSize.width * scale / 2) p.x)
    linarith
  · have := max_le hwx
      (min_le_left (container.width - designSize.width * scale / 2) p.x)
    linarith
  · have := le_max_left (designSize.height * scale / 2)
      (min (container.height - designSize.height * scale / 2) p.y)
    linarith
  · have := max_le hhy
      (min_le_left (container.height - designSize.height * scale / 2) p.y)
    linarith

/-- Witness for `clampPosition_in_bounds` at a concrete input. -/
theorem clampPosition_in_bounds_witness :
    boxInBounds ⟨100, 100⟩ ⟨40, 30⟩ 2
      (clampPosition ⟨100, 100⟩ ⟨40, 30⟩ 2 ⟨0, 0⟩) :=
  clampPosition_in_bounds ⟨100, 100⟩ ⟨40, 30⟩ 2 ⟨0, 0⟩
    (by norm_num) (by norm_num) (by norm_num) (by norm_num)

/-- Claim C9: the pixel sampler is said to clamp native-pixel indices to
`[0, dim-1]`.  It does not: a click exactly on the right border of a
100-CSS-pixel-wide image with 200 native pixels yields index 200,
outside `[0, 199]`. -/
theorem sampleIndex_border_escapes :
    (0 : ℚ) ≤ 100 ∧ (100 : ℚ) ≤ 100 ∧
    ¬ indexInBounds 200 (sampleIndex 200 100 100) := by
  have hval : sampleIndex 200 100 100 = 200 := by
    simp only [sampleIndex]
    norm_num
  refine ⟨by norm_num, le_refl _, ?_⟩
  intro h
  rw [hval] at h
  exact absurd h.2 (by norm_num)

/-- Claim C9 (amended): the sampler computes `floor(coord * natural /
displayed)` with no clamping; the resulting index lies in `[0, dim-1]`
for every coordinate in the half-open range `[0, displayedDim)`, but a
coordinate exactly on the border (`coord = displayedDim`) produces the
out-of-range index `naturalDim`. -/
theorem sampleIndex_in_bounds (naturalDim : ℕ) (displayedDim coord : ℚ)
    (hnat : 0 < naturalDim) (hdisp : 0 < displayedDim)
    (hc0 : 0 ≤ coord) (hclt : coord < displayedDim) :
    indexInBounds naturalDim (sampleIndex naturalDim displayedDim coord) := by
  constructor
  · exact Int.floor_nonneg.mpr
      (mul_nonneg hc0 (div_nonneg (Nat.cast_nonneg _) hdisp.le))
  · have hnq : (0 : ℚ) < (naturalDim : ℚ) := by exact_mod_cast hnat
    have hratio : (0 : ℚ) < (naturalDim : ℚ) / displayedDim :=
      div_pos hnq hdisp
    have hmul : coord * ((naturalDim : ℚ) / displayedDim) <
        displayedDim * ((naturalDim : ℚ) / displayedDim) :=
      mul_lt_mul_of_pos_right hclt hratio
    have hcancel : displayedDim * ((naturalDim : ℚ) / displayedDim)
        = (naturalDim : ℚ) := by
      field_simp
    have hlt : coord * ((naturalDim : ℚ) / displayedDim) < (naturalDim : ℚ) := by
      rw [hcancel] at hmul; exact hmul
    have : sampleIndex naturalDim displayedDim coord < (naturalDim : ℤ) := by
      exact Int.floor_lt.mpr (by exact_mod_cast hlt)
    omega

/-- Witness for `sampleIndex_in_bounds` at a concrete input. -/
theorem sampleIndex_in_bounds_witness :
    indexInBounds 200 (sampleIndex 200 100 99) :=
  sampleIndex_in_bounds 200 100 99 (by norm_num) (by norm_num)
    (by norm_num) (by norm_num)

/-- Claim C10: `getColorName` is total and returns "white" for any hex
string outside its eight mapped keys, and `formatPrompt` always produces
`head ++ " " ++ base ++ " on a " ++ colorName ++ " background, " ++ suffix`,
so an unrecognized t-shirt color is described as "white". -/
theorem getColorName_total_default_white (hex : String)
    (h1 : hex ≠ "#ffffff") (h2 : hex ≠ "#000000") (h3 : hex ≠ "#0f172a")
    (h4 : hex ≠ "#6b7280") (h5 : hex ≠ "#ef4444") (h6 : hex ≠ "#22c55e")
    (h7 : hex ≠ "#3b82f6") (h8 : hex ≠ "#a855f7") :
    getColorName hex = "white" ∧
    ∀ base c : String, formatPrompt base c =
      PROMPT_TEMPLATES_head ++ " " ++ base ++ " on a " ++ getColorName c
        ++ " background, " ++ PROMPT_TEMPLATES_suffix := by
  constructor
  · simp only [getColorName, h1, h2, h3, h4, h5, h6, h7, h8, if_false]
  · intro base c
    rfl

/-- Witness for `getColorName_total_default_white` at a concrete input. -/
theorem getColorName_total_default_white_witness :
    getColorName "#123456" = "white" ∧
    ∀ base c : String, formatPrompt base c =
      PROMPT_TEMPLATES_head ++ " " ++ base ++ " on a " ++ getColorName c
        ++ " background, " ++ PROMPT_TEMPLATES_suffix :=
  getColorName_total_default_white ("#123456") (by decide) (by decide)
    (by decide) (by decide) (by decide) (by decide) (by decide) (by decide)

/-- Claim C2: the claim states that when prompt B is submitted while
prompt A's poll loop is in flight, only B's resolution is ever committed.
This is false: the poll loop carries no epoch token, so in the schedule
submit A, submit B, B resolves, A resolves late, A's commit overwrites
B's image and the final texture is A's. -/
theorem stale_poll_overwrites_newer_submission :
    (runEvents
      [GenEvent.submit ("A"), GenEvent.submit ("B"),
       GenEvent.resolve ("B") none ("imgB") 100 100,
       GenEvent.resolve ("A") none ("imgA") 100 100] initialState).designTexture
      = some ("imgA") ∧ ("imgA" : String) ≠ ("imgB" : String) :=
  ⟨rfl, by decide⟩

/-- Claim C2 (amended): the generation code has no epoch/token guard: a
poll-loop resolution commits unconditionally, so the committed image is
that of whichever resolution arrives last (last writer wins), regardless
of submission order — in particular a stale resolution of an earlier
prompt can overwrite the image committed by a later prompt. -/
theorem last_resolve_wins (es : List GenEvent) (st : CState) (tid : String)
    (captured : Option String) (img : String) (w h : ℚ) :
    (runEvents (es ++ [GenEvent.resolve tid captured img w h]) st).designTexture
      = some img := by
  induction es generalizing st with
  | nil =>
      cases captured <;>
        simp [runEvents, pollCommit, updateDesignWithHistory]
  | cons e es ih =>
      cases e with
      | submit t => simpa [runEvents] using ih _
      | resolve t c i ww hh => simpa [runEvents] using ih _

/-- Claim C4: the claim states that while a request is in flight
(`isLoading`), a second transparency invocation is ignored with no
request and no state mutation.  This is false: the transparency guard
does not consult `isLoading`, so with `isLoading = true` the handler
still issues its request and replaces the design texture. -/
theorem transparency_not_guarded_by_isLoading :
    (handleTransparencyChange
      { initialState with designTexture := some ("img"), isLoading := true }
      ("#ffffff") (RemoteOutcome.success ("newUrl"))).2 = true ∧
    (handleTransparencyChange
      { initialState with designTexture := some ("img"), isLoading := true }
      ("#ffffff") (RemoteOutcome.success ("newUrl"))).1.designTexture
      = some ("newUrl") ∧
    (some ("newUrl") : Option String) ≠ some ("img") :=
  ⟨rfl, rfl, by decide⟩

/-- Claim C4 (amended): background removal is serialized by the
`isLoading` guard — while a request is in flight a second invocation
returns immediately with no request and no state change.  Transparency
adjustment, however, is guarded only by the presence of a design texture
and of a selected color; when those are present it proceeds (issues its
request) even while a request is already in flight. -/
theorem background_toggle_serialized (st : CState) (o : RemoteOutcome)
    (selectedColor : String) (hl : st.isLoading = true) :
    handleBackgroundToggle st o = (st, false) ∧
    ((st.designTexture = none ∨ selectedColor = "") →
      handleTransparencyChange st selectedColor o = (st, false)) ∧
    (∀ t, st.designTexture = some t → selectedColor ≠ "" →
      (handleTransparencyChange st selectedColor o).2 = true) := by
  refine ⟨?_, ?_, ?_⟩
  · simp [handleBackgroundToggle, hl]
  · intro h; simp [handleTransparencyChange, h]
  · intro t ht hc
    have hguard : ¬ (st.designTexture = none ∨ selectedColor = "") := by
      simp [ht, hc]
    cases o <;> simp [handleTransparencyChange, hguard]

/-- Witness for `background_toggle_serialized` at a concrete input. -/
theorem background_toggle_serialized_witness :
    handleBackgroundToggle
      { initialState with designTexture := some ("img"), isLoading := true }
      (RemoteOutcome.success ("u")) =
      ({ initialState with designTexture := some ("img"), isLoading := true },
        false) ∧
    (handleTransparencyChange
      { initialState with designTexture := some ("img"), isLoading := true }
      ("#ffffff") (RemoteOutcome.success ("u"))).2 = true := by
  have h := background_toggle_serialized
    { initialState with designTexture := some ("img"), isLoading := true }
    (RemoteOutcome.success ("u")) ("#ffffff") rfl
  exact ⟨h.1, h.2.2 ("img") rfl (by decide)⟩

/-- Claim C5: the claim states that a crop with zero/undefined width or
height is a no-op on the image, does not throw, and exits crop mode.
The last part is false: the zero-size guard skips the whole body,
including the `setIsCropping(false)` call, so crop mode stays active. -/
theorem degenerate_crop_keeps_crop_mode :
    ¬ ((handleCropComplete
      { initialState with designTexture := some ("img"), isCropping := true }
      (some { naturalWidth := 200, naturalHeight := 200, width := 100, height := 100 })
      { x := 0, y := 0, width := some 0, height := some 0 }
      (some ("blobUrl"))).isCropping = false) := by
  decide

/-- Claim C5 (amended): a crop whose width or height is zero or
undefined leaves the entire state unchanged — the image is untouched and
nothing is thrown — but crop mode is NOT exited: `isCropping` keeps its
prior value, because the guard also skips the mode-exit call. -/
theorem degenerate_crop_noop (st : CState) (image : Option ImageElem)
    (crop : CropRegion) (blob : Option String)
    (h : jsTruthyQ crop.width = false ∨ jsTruthyQ crop.height = false) :
    handleCropComplete st image crop blob = st := by
  cases image with
  | none => rfl
  | some i =>
      simp only [handleCropComplete]
      rcases h with h | h <;> simp [h]

/-- Witness for `degenerate_crop_noop` at a concrete input. -/
theorem degenerate_crop_noop_witness :
    handleCropComplete initialState
      (some { naturalWidth := 200, naturalHeight := 200, width := 100, height := 100 })
      { x := 0, y := 0, width := some 0, height := some 0 } none = initialState :=
  degenerate_crop_noop initialState _ _ none (Or.inl (by decide))

/-- Claim C6: cropping with a region equal to the full displayed image
yields an output canvas of exactly the native dimensions: the canvas is
sized `crop.width * (naturalWidth / displayedWidth)` by
`crop.height * (naturalHeight / displayedHeight)`, which at
`crop = displayed size` equals `naturalWidth x naturalHeight`. -/
theorem full_crop_native_dims (image : ImageElem)
    (hw : image.width ≠ 0) (hh : image.height ≠ 0) :
    cropCanvasWidth image image.width = image.naturalWidth ∧
    cropCanvasHeight image image.height = image.naturalHeight := by
  constructor
  · unfold cropCanvasWidth; field_simp
  · unfold cropCanvasHeight; field_simp

/-- Witness for `full_crop_native_dims` at a concrete input. -/
theorem full_crop_native_dims_witness :
    cropCanvasWidth
      { naturalWidth := 400, naturalHeight := 300, width := 200, height := 150 }
      200 = 400 ∧
    cropCanvasHeight
      { naturalWidth := 400, naturalHeight := 300, width := 200, height := 150 }
      150 = 300 :=
  full_crop_native_dims
    { naturalWidth := 400, naturalHeight := 300, width := 200, height := 150 }
    (by norm_num) (by norm_num)

/-- Claim C7: undo on an empty history is a no-op — the current image
and the transform are unchanged — and on a non-empty history undo
replaces the current image with the popped entry and pops exactly one
entry. -/
theorem undo_empty_noop_pops_one (st : CState) :
    (st.designHistory = [] → handleUndo st = st) ∧
    ∀ l x, st.designHistory = l ++ [x] →
      (handleUndo st).designTexture = some x ∧
      (handleUndo st).designHistory = l ∧
      (handleUndo st).designTransform = st.designTransform := by
  constructor
  · intro h
    simp [handleUndo, h]
  · intro l x h
    have h1 : st.designHistory.getLast? = some x := by
      rw [h]; exact List.getLast?_concat _
    simp [handleUndo, h1, h, List.dropLast_concat]

/-- Witness for `undo_empty_noop_pops_one` at concrete inputs. -/
theorem undo_empty_noop_pops_one_witness :
    handleUndo initialState = initialState ∧
    (handleUndo { initialState with designHistory := ["a", "b"] }).designTexture
      = some ("b") ∧
    (handleUndo { initialState with designHistory := ["a", "b"] }).designHistory
      = ["a"] :=
  ⟨(undo_empty_noop_pops_one initialState).1 rfl,
   ((undo_empty_noop_pops_one
      { initialState with designHistory := ["a", "b"] }).2 ["a"] ("b") rfl).1,
   ((undo_empty_noop_pops_one
      { initialState with designHistory := ["a", "b"] }).2 ["a"] ("b") rfl).2.1⟩

/-- The poll loop performs at most `fuel` further status fetches. -/
theorem pollLoop_polls_le (resp : ℕ → StatusResp) (captured : Option String) :
    ∀ fuel retries polls waits st,
      (pollLoop resp captured fuel retries polls waits st).polls ≤ polls + fuel := by
  intro fuel
  induction fuel with
  | zero =>
      intro retries polls waits st
      simp [pollLoop]
  | succ f ih =>
      intro retries polls waits st
      have hrec := ih (retries + 1) (polls + 1) (waits ++ [pollIntervalMs])
        { st with retryCount := retries + 1 }
      simp only [pollLoop]
      cases hr : resp retries with
      | httpError =>
          show polls + 1 ≤ polls + (f + 1)
          omega
      | failed e =>
          show polls + 1 ≤ polls + (f + 1)
          omega
      | completed iu idat load =>
          cases hs : resolveImageSource iu idat with
          | none =>
              simp [hs]
              try omega
          | some src =>
              by_cases hsrc : src = ""
              · simp [hs, hsrc]
                try omega
              · cases load with
                | some dims =>
                    simp [hs, hsrc]
                    try omega
                | none =>
                    simp [hs, hsrc]
                    try omega
      | processing => exact le_trans hrec (by omega)

/-- Every wait the poll loop takes is the fixed interval. -/
theorem pollLoop_waits_fixed (resp : ℕ → StatusResp) (captured : Option String) :
    ∀ fuel retries polls waits st w,
      w ∈ (pollLoop resp captured fuel retries polls waits st).waits →
      w ∈ waits ∨ w = pollIntervalMs := by
  intro fuel
  induction fuel with
  | zero =>
      intro retries polls waits st w hw
      simp [pollLoop] at hw
      exact Or.inl hw
  | succ f ih =>
      intro retries polls waits st w hw
      simp only [pollLoop] at hw
      cases hr : resp retries with
      | httpError =>
          simp [hr] at hw
          exact Or.inl hw
      | failed e =>
          simp [hr] at hw
          exact Or.inl hw
      | completed iu idat load =>
          cases hs : resolveImageSource iu idat with
          | none =>
              simp [hr, hs] at hw
              exact Or.inl hw
          | some src =>
              by_cases hsrc : src = ""
              · simp [hr, hs, hsrc] at hw
                exact Or.inl hw
              · cases load with
                | some dims =>
                    simp [hr, hs, hsrc] at hw
                    exact Or.inl hw
                | none =>
                    simp [hr, hs, hsrc] at hw
                    exact Or.inl hw
      | processing =>
          simp [hr] at hw
          have := ih (retries + 1) (polls + 1) (waits ++ [pollIntervalMs])
            { st with retryCount := retries + 1 } w hw
          rcases this with h | h
          · rcases List.mem_append.mp h with h2 | h2
            · exact Or.inl h2
            · exact Or.inr (List.mem_singleton.mp h2)
          · exact Or.inr h

/-- If every status in the budget is non-terminal, the poll loop times
out with the timeout message. -/
theorem pollLoop_timeout (resp : ℕ → StatusResp) (captured : Option String) :
    ∀ fuel retries polls waits st,
      (∀ k, k < fuel → resp (retries + k) = StatusResp.processing) →
      (pollLoop resp captured fuel retries polls waits st).result
        = PollResult.timedOut ∧
      (pollLoop resp captured fuel retries polls waits st).state.error
        = some ("Design generation timed out. Please try again.") := by
  intro fuel
  induction fuel with
  | zero =>
      intro retries polls waits st _
      exact ⟨rfl, rfl⟩
  | succ f ih =>
      intro retries polls waits st h
      have h0 : resp retries = StatusResp.processing := by
        simpa using h 0 (Nat.succ_pos f)
      simp only [pollLoop, h0]
      apply ih
      intro k hk
      have hidx : retries + (k + 1) = retries + 1 + k := by omega
      have := h (k + 1) (by omega)
      rwa [hidx] at this

/-- If the first terminal status in the budget is `failed`, the poll
loop ends with the corresponding error. -/
theorem pollLoop_first_failed (resp : ℕ → StatusResp) (captured : Option String) :
    ∀ n fuel retries polls waits st, n < fuel →
      (∀ k, k < n → resp (retries + k) = StatusResp.processing) →
      ∀ e, resp (retries + n) = StatusResp.failed e →
      (pollLoop resp captured fuel retries polls waits st).result
        = PollResult.errored (failedMsg e) := by
  intro n
  induction n with
  | zero =>
      intro fuel retries polls waits st hf _ e he
      cases fuel with
      | zero => omega
      | succ f =>
          have h0 : resp retries = StatusResp.failed e := by simpa using he
          simp [pollLoop, h0]
  | succ m ih =>
      intro fuel retries polls waits st hf hproc e he
      cases fuel with
      | zero => omega
      | succ f =>
          have h0 : resp retries = StatusResp.processing := by
            simpa using hproc 0 (Nat.succ_pos m)
          simp only [pollLoop, h0]
          apply ih f (retries + 1) (polls + 1) (waits ++ [pollIntervalMs])
            { st with retryCount := retries + 1 } (by omega)
          · intro k hk
            have hidx : retries + (k + 1) = retries + 1 + k := by omega
            have := hproc (k + 1) (by omega)
            rwa [hidx] at this
          · have hidx : retries + (m + 1) = retries + 1 + m := by omega
            rwa [hidx] at he

/-- If the first terminal status in the budget is `completed` with a
truthy image source and a successful image load, the poll loop resolves
with that image. -/
theorem pollLoop_first_completed (resp : ℕ → StatusResp)
    (captured : Option String) :
    ∀ n fuel retries polls waits st, n < fuel →
      (∀ k, k < n → resp (retries + k) = StatusResp.processing) →
      ∀ iu idat dims,
        resp (retries + n) = StatusResp.completed iu idat (some dims) →
      ∀ src, resolveImageSource iu idat = some src → src ≠ "" →
      (pollLoop resp captured fuel retries polls waits st).result
        = PollResult.success src := by
  intro n
  induction n with
  | zero =>
      intro fuel retries polls waits st hf _ iu idat dims he src hsrc hne
      cases fuel with
      | zero => omega
      | succ f =>
          have h0 : resp retries = StatusResp.completed iu idat (some dims) := by
            simpa using he
          simp [pollLoop, h0, hsrc, hne]
  | succ m ih =>
      intro fuel retries polls waits st hf hproc iu idat dims he src hsrc hne
      cases fuel with
      | zero => omega
      | succ f =>
          have h0 : resp retries = StatusResp.processing := by
            simpa using hproc 0 (Nat.succ_pos m)
          simp only [pollLoop, h0]
          apply ih f (retries + 1) (polls + 1) (waits ++ [pollIntervalMs])
            { st with retryCount := retries + 1 } (by omega) ?_ iu idat dims
            ?_ src hsrc hne
          · intro k hk
            have hidx : retries + (k + 1) = retries + 1 + k := by omega
            have := hproc (k + 1) (by omega)
            rwa [hidx] at this
          · have hidx : retries + (m + 1) = retries + 1 + m := by omega
            rwa [hidx] at he

/-- Any run of the poll loop that does not end in success leaves the
current image, the transform and the history untouched. -/
theorem pollLoop_failure_preserves (resp : ℕ → StatusResp)
    (captured : Option String) :
    ∀ fuel retries polls waits st,
      (∀ img, (pollLoop resp captured fuel retries polls waits st).result
        ≠ PollResult.success img) →
      coreUnchanged st (pollLoop resp captured fuel retries polls waits st).state := by
  intro fuel
  induction fuel with
  | zero =>
      intro retries polls waits st _
      exact ⟨rfl, rfl, rfl⟩
  | succ f ih =>
      intro retries polls waits st h
      simp only [pollLoop] at h ⊢
      cases hr : resp retries with
      | httpError => exact ⟨rfl, rfl, rfl⟩
      | failed e => exact ⟨rfl, rfl, rfl⟩
      | completed iu idat load =>
          cases hs : resolveImageSource iu idat with
          | none => simp [hs, coreUnchanged]
          | some src =>
              by_cases hsrc : src = ""
              · simp [hs, hsrc, coreUnchanged]
              · cases load with
                | some dims =>
                    have hsucc := h src
                    simp [hr, hs, hsrc] at hsucc
                | none => simp [hs, hsrc, coreUnchanged]
      | processing =>
          simp only [hr] at h
          have hred : (∀ img,
              (pollLoop resp captured f (retries + 1) (polls + 1)
                (waits ++ [pollIntervalMs])
                { st with retryCount := retries + 1 }).result
              ≠ PollResult.success img) := by
            intro img
            exact h img
          exact ih (retries + 1) (polls + 1) (waits ++ [pollIntervalMs])
            { st with retryCount := retries + 1 } hred

/-- Claim C8: the poll loop terminates for every response sequence: it
performs at most `maxRetries = 30` status fetches at a fixed interval of
`pollIntervalMs = 1000` ms, resolves when the first terminal status is
`completed` (with a usable, loadable image), ends in an error when it is
`failed`, and when the attempt budget is exhausted it stops and sets the
timeout message. -/
theorem pollDesignStatus_bounded (resp : ℕ → StatusResp)
    (captured : Option String) (st : CState) :
    maxRetries = 30 ∧ pollIntervalMs = 1000 ∧
    (pollDesignStatus resp captured st).polls ≤ maxRetries ∧
    (∀ w ∈ (pollDesignStatus resp captured st).waits, w = pollIntervalMs) ∧
    ((∀ k, k < maxRetries → resp k = StatusResp.processing) →
      (pollDesignStatus resp captured st).result = PollResult.timedOut ∧
      (pollDesignStatus resp captured st).state.error
        = some ("Design generation timed out. Please try again.")) ∧
    (∀ n, n < maxRetries → (∀ k, k < n → resp k = StatusResp.processing) →
      ∀ e, resp n = StatusResp.failed e →
      (pollDesignStatus resp captured st).result
        = PollResult.errored (failedMsg e)) ∧
    (∀ n, n < maxRetries → (∀ k, k < n → resp k = StatusResp.processing) →
      ∀ iu idat dims, resp n = StatusResp.completed iu idat (some dims) →
      ∀ src, resolveImageSource iu idat = some src → src ≠ "" →
      (pollDesignStatus resp captured st).result = PollResult.success src) := by
  refine ⟨rfl, rfl, ?_, ?_, ?_, ?_, ?_⟩
  · simpa [pollDesignStatus] using
      pollLoop_polls_le resp captured maxRetries 0 0 [] st
  · intro w hw
    have := pollLoop_waits_fixed resp captured maxRetries 0 0 [] st w hw
    simpa using this
  · intro h
    exact pollLoop_timeout resp captured maxRetries 0 0 [] st
      (by intro k hk; simpa using h k hk)
  · intro n hn hproc e he
    exact pollLoop_first_failed resp captured n maxRetries 0 0 [] st hn
      (by intro k hk; simpa using hproc k hk) e (by simpa using he)
  · intro n hn hproc iu idat dims he src hsrc hne
    exact pollLoop_first_completed resp captured n maxRetries 0 0 [] st hn
      (by intro k hk; simpa using hproc k hk) iu idat dims
      (by simpa using he) src hsrc hne

/-- Witness for `pollDesignStatus_bounded` at a concrete input: an
always-processing status sequence exhausts the 30 attempts and ends in
the timeout message. -/
theorem pollDesignStatus_bounded_witness :
    (pollDesignStatus (fun _ => StatusResp.processing) none initialState).result
      = PollResult.timedOut ∧
    (pollDesignStatus (fun _ => StatusResp.processing) none
      initialState).state.error
      = some ("Design generation timed out. Please try again.") :=
  (pollDesignStatus_bounded (fun _ => StatusResp.processing) none
    initialState).2.2.2.2.1 (fun _ _ => rfl)

/-- Claim C3: for each remote operation (generation submit, generation
poll, background removal, transparency) and each failure outcome, the
operation leaves the current image, the transform and the history
exactly as they were, and its state effect is confined to the error
message (and the busy flag it owns). -/
theorem failed_remote_ops_preserve_state (st : CState) :
    (∀ m : String,
      coreUnchanged st (handleGenerateDesign st (SubmitOutcome.networkError m)) ∧
      (handleGenerateDesign st (SubmitOutcome.networkError m)).error = some m ∧
      (handleGenerateDesign st (SubmitOutcome.networkError m)).isGenerating
        = false) ∧
    (∀ s : String,
      coreUnchanged st (handleGenerateDesign st (SubmitOutcome.httpError s)) ∧
      (handleGenerateDesign st (SubmitOutcome.httpError s)).error
        = some ("Failed to generate design: " ++ s)) ∧
    (∀ resp captured,
      (∀ img, (pollDesignStatus resp captured st).result
        ≠ PollResult.success img) →
      coreUnchanged st (pollDesignStatus resp captured st).state) ∧
    (∀ m, coreUnchanged st
      (handleBackgroundToggle st (RemoteOutcome.networkError m)).1) ∧
    (∀ s, coreUnchanged st
      (handleBackgroundToggle st (RemoteOutcome.httpError s)).1) ∧
    (st.isLoading = false → st.designTexture ≠ none → ∀ m,
      (handleBackgroundToggle st (RemoteOutcome.networkError m)).1.error = some m ∧
      (handleBackgroundToggle st (RemoteOutcome.networkError m)).1.isLoading
        = false) ∧
    (∀ c m, coreUnchanged st
      (handleTransparencyChange st c (RemoteOutcome.networkError m)).1) ∧
    (∀ c s, coreUnchanged st
      (handleTransparencyChange st c (RemoteOutcome.httpError s)).1) ∧
    (∀ c m, c ≠ "" → st.designTexture ≠ none →
      (handleTransparencyChange st c (RemoteOutcome.networkError m)).1.error
        = some m ∧
      (handleTransparencyChange st c (RemoteOutcome.networkError m)).1.isLoading
        = false) := by
  refine ⟨?_, ?_, ?_, ?_, ?_, ?_, ?_, ?_, ?_⟩
  · intro m
    exact ⟨⟨rfl, rfl, rfl⟩, rfl, rfl⟩
  · intro s
    exact ⟨⟨rfl, rfl, rfl⟩, rfl⟩
  · intro resp captured h
    exact pollLoop_failure_preserves resp captured maxRetries 0 0 [] st h
  · intro m
    simp only [handleBackgroundToggle]
    split
    · exact ⟨rfl, rfl, rfl⟩
    · exact ⟨rfl, rfl, rfl⟩
  · intro s
    simp only [handleBackgroundToggle]
    split
    · exact ⟨rfl, rfl, rfl⟩
    · exact ⟨rfl, rfl, rfl⟩
  · intro hl ht m
    have hguard : ¬ (st.designTexture = none ∨ st.isLoading = true) := by
      simp [ht, hl]
    simp [handleBackgroundToggle, hguard]
  · intro c m
    simp only [handleTransparencyChange]
    split
    · exact ⟨rfl, rfl, rfl⟩
    · exact ⟨rfl, rfl, rfl⟩
  · intro c s
    simp only [handleTransparencyChange]
    split
    · exact ⟨rfl, rfl, rfl⟩
    · exact ⟨rfl, rfl, rfl⟩
  · intro c m hc ht
    have hguard : ¬ (st.designTexture = none ∨ c = "") := by
      simp [ht, hc]
    simp [handleTransparencyChange, hguard]

/-- Witness for `failed_remote_ops_preserve_state` at concrete inputs. -/
theorem failed_remote_ops_preserve_state_witness :
    (coreUnchanged initialState
      (handleGenerateDesign initialState (SubmitOutcome.networkError ("boom"))) ∧
     (handleGenerateDesign initialState
        (SubmitOutcome.networkError ("boom"))).error = some ("boom") ∧
     (handleGenerateDesign initialState
        (SubmitOutcome.networkError ("boom"))).isGenerating = false) ∧
    (handleTransparencyChange { initialState with designTexture := some ("img") }
      ("#ffffff") (RemoteOutcome.networkError ("down"))).1.error = some ("down") := by
  constructor
  · exact (failed_remote_ops_preserve_state initialState).1 ("boom")
  · exact ((failed_remote_ops_preserve_state
      { initialState with designTexture := some ("img") }).2.2.2.2.2.2.2.2
      ("#ffffff") ("down") (by decide) (by decide)).1

end TShirt
